import Mathlib

/-!
Verification development for the deliverability verification engine in
`mailer.js` (functions `verifyEmail`, `testSMTPConnection`,
`calculateHeuristicConfidence`, `detectMailProvider`, `isValidFormat`,
`isRoleAccount`, `isDisposableDomain`, `isFreeEmailProvider`,
`generateRandomEmail`).

The JavaScript source is embedded shallowly:
* strings are Lean `String`s manipulated through explicit, structurally
  recursive helpers over `List Char` (so every definition evaluates in the
  kernel);
* the live network is an explicit oracle (`Network`): the result of the one
  `resolveMx` call and, per probed address, the sequence of events the open
  socket delivers;
* a promise that resolves is an ordinary value; an unexpected promise
  rejection (the situation handled by the outer `try`/`catch`) is modelled by
  the `Call.fault` constructor carrying the error message;
* `crypto.randomBytes(16).toString('hex')` is an oracle `rnd : Nat → String`
  giving the random hex string used by the i-th call of `generateRandomEmail`;
* JavaScript numbers holding small integers are `Int`/`Nat`.
-/

namespace AutoEmailer

/-! ## Character and string helpers (kernel-evaluable) -/

/-- Membership of a character in JavaScript's `\s` class, restricted to the
ASCII range (the addresses this engine handles are ASCII). -/
def jsWhitespace (c : Char) : Bool :=
  c == ' ' || c == '\t' || c == '\n' || c == '\r' || c == '\x0b' || c == '\x0c'

/-- Lowercase ASCII letter, JavaScript regex class `[a-z]`. -/
def isLowerAlpha (c : Char) : Bool := 'a' ≤ c && c ≤ 'z'

/-- JavaScript regex class `[a-z0-9]`. -/
def isLowerAlnum (c : Char) : Bool := isLowerAlpha c || c.isDigit

/-- Does `pat` occur at the very front of `s`? -/
def charsLead : List Char → List Char → Bool
  | [], _ => true
  | _ :: _, [] => false
  | p :: ps, c :: cs => p == c && charsLead ps cs

/-- Does `pat` occur somewhere in `s` (JavaScript `String.includes`)? -/
def charsHave (pat : List Char) : List Char → Bool
  | [] => charsLead pat []
  | c :: cs => charsLead pat (c :: cs) || charsHave pat cs

/-- JavaScript `s.startsWith(pat)` / `^pat` anchored regex test. -/
def strLeads (s pat : String) : Bool := charsLead pat.toList s.toList

/-- JavaScript `s.includes(pat)`. -/
def strHas (s pat : String) : Bool := charsHave pat.toList s.toList

/-- JavaScript `s.length` (the addresses in play are ASCII, where UTF-16 code
units and code points agree). -/
def strLen (s : String) : Nat := s.toList.length

/-- Every character of `s` satisfies `p`. -/
def strAll (s : String) (p : Char → Bool) : Bool := s.toList.all p

/-- JavaScript `s.toLowerCase()` on ASCII text. -/
def strToLower (s : String) : String := String.mk (s.toList.map Char.toLower)

/-- Splitting on a single-character separator, JavaScript `s.split(sep)`. -/
def splitOnCharAux (sep : Char) : List Char → List Char → List (List Char)
  | [], acc => [acc.reverse]
  | c :: cs, acc =>
      if c == sep then acc.reverse :: splitOnCharAux sep cs []
      else splitOnCharAux sep cs (c :: acc)

/-- JavaScript `s.split(sep)` for a one-character separator. -/
def splitOnChar (sep : Char) (s : String) : List String :=
  (splitOnCharAux sep s.toList []).map String.mk

/-- Local part of an address: `email.split('@')[0]`. -/
def localPartOf (email : String) : String := (splitOnChar '@' email).headD ""

/-- Domain of an address as the source reads it: the second element of
`email.split('@')`, lowercased. -/
def domainLowerOf (email : String) : String :=
  strToLower (((splitOnChar '@' email).drop 1).headD "")

/-! ## Lexical/policy filters (`isValidFormat`, `isRoleAccount`,
`isDisposableDomain`, `isFreeEmailProvider`) -/

/-- Does the string have a `.` at an interior position (at least one character
before it and one after)?  This is what `[^\s@]+\.[^\s@]+` adds beyond the
character-class checks, given that `.` itself belongs to `[^\s@]`. -/
def hasInteriorDot (s : String) : Bool :=
  ((s.toList.drop 1).dropLast).contains '.'

/-- Source function `isValidFormat`: the anchored regex
`^[^\s@]+@[^\s@]+\.[^\s@]+$`.  A match forces exactly one `@` (the classes
exclude `@`), a nonempty whitespace-free local part, and a whitespace-free
domain with an interior dot. -/
def isValidFormat (email : String) : Bool :=
  match splitOnChar '@' email with
  | [a, b] =>
      (a != "") && strAll a (fun c => !jsWhitespace c) &&
      strAll b (fun c => !jsWhitespace c) && hasInteriorDot b
  | _ => false

/-- The fixed role-account local-part list from `isRoleAccount`. -/
def roleAccounts : List String :=
  ["info", "admin", "support", "sales", "contact", "help", "service",
   "office", "hello", "team", "mail", "webmaster", "postmaster", "noreply",
   "no-reply", "jobs", "careers", "hr", "marketing", "billing", "accounts"]

/-- Source function `isRoleAccount`. -/
def isRoleAccount (localPart : String) : Bool :=
  roleAccounts.contains (strToLower localPart)

/-- The fixed disposable-domain list from `isDisposableDomain`. -/
def disposableDomains : List String :=
  ["tempmail.com", "guerrillamail.com", "10minutemail.com",
   "mailinator.com", "throwaway.email", "temp-mail.org",
   "maildrop.cc", "sharklasers.com", "yopmail.com",
   "trashmail.com", "fakeinbox.com", "getnada.com"]

/-- Source function `isDisposableDomain`. -/
def isDisposableDomain (domain : String) : Bool :=
  disposableDomains.contains domain

/-- The fixed free-provider list from `isFreeEmailProvider`. -/
def freeProviders : List String :=
  ["gmail.com", "yahoo.com", "hotmail.com", "outlook.com",
   "aol.com", "icloud.com", "mail.com", "protonmail.com",
   "zoho.com", "yandex.com", "gmx.com", "live.com"]

/-- Source function `isFreeEmailProvider`. -/
def isFreeEmailProvider (domain : String) : Bool :=
  freeProviders.contains domain

/-! ## Provider fingerprint (`detectMailProvider`) -/

/-- JavaScript `array.join(' ')`. -/
def joinSpace : List String → String
  | [] => ""
  | [x] => x
  | x :: y :: xs => x ++ " " ++ joinSpace (y :: xs)

/-- Source function `detectMailProvider`: case-insensitive substring matching
over the space-joined MX hostnames. -/
def detectMailProvider (mxRecords : List String) : String :=
  let mxString := strToLower (joinSpace mxRecords)
  if strHas mxString "google" || strHas mxString "googlemail" then
    "google_workspace"
  else if strHas mxString "outlook" || strHas mxString "microsoft" ||
      strHas mxString "office365" then
    "microsoft365"
  else if strHas mxString "zoho" then "zoho"
  else if strHas mxString "protonmail" then "protonmail"
  else if strHas mxString "gmail" || strHas mxString "yahoo" ||
      strHas mxString "hotmail" then
    "consumer"
  else "corporate"

/-! ## MX records and the sort by priority -/

/-- One record returned by `dns.resolveMx`. -/
structure MxRecord where
  exchange : String
  priority : Nat
deriving DecidableEq, Repr

/-- Insert a record into an already priority-sorted list, keeping it before
records of equal priority (so the overall sort is stable, as
`Array.prototype.sort` with comparator `a.priority - b.priority` is). -/
def insertByPriority (x : MxRecord) : List MxRecord → List MxRecord
  | [] => [x]
  | y :: ys =>
      if x.priority ≤ y.priority then x :: y :: ys
      else y :: insertByPriority x ys

/-- The source's `mxRecords.sort((a, b) => a.priority - b.priority)`: a stable
ascending sort by priority. -/
def sortByPriority : List MxRecord → List MxRecord
  | [] => []
  | x :: xs => insertByPriority x (sortByPriority xs)

/-! ## The SMTP probe (`testSMTPConnection`) -/

/-- Result of one probe, the object `testSMTPConnection` resolves with.
`code` is `none` exactly in the branches whose object literal has no `code`
key. -/
structure ProbeOutcome where
  connected : Bool
  accepted : Bool
  reason : String
  code : Option String := none
deriving DecidableEq, Repr

/-- One event delivered to the open socket: a `data` chunk carrying one
complete reply line (without its CRLF, which the handler strips when it takes
`lines[lines.length - 2]`), an `error` event with its message, or the socket's
own `timeout` event.  If the event list is exhausted before the promise
resolves, the 15-second wall-clock timer fires. -/
inductive NetEvent where
  | reply (line : String)
  | err (msg : String)
  | idleTimeout
deriving DecidableEq, Repr

/-- The regex `^(\d{3})` used to update `lastResponseCode`. -/
def codeOf (l : String) : Option String :=
  match l.toList with
  | a :: b :: c :: _ =>
      if a.isDigit && b.isDigit && c.isDigit then some (String.mk [a, b, c])
      else none
  | _ => none

/-- The regex `^[23]\d{2}`. -/
def matches23 (l : String) : Bool :=
  match l.toList with
  | a :: b :: c :: _ => (a == '2' || a == '3') && b.isDigit && c.isDigit
  | _ => false

/-- The regex `^[45]\d{2}`. -/
def matches45 (l : String) : Bool :=
  match l.toList with
  | a :: b :: c :: _ => (a == '4' || a == '5') && b.isDigit && c.isDigit
  | _ => false

/-- The rejection-phrase scan applied to the lowercased decisive line. -/
def hasRejectionPhrase (lower : String) : Bool :=
  strHas lower "user unknown" || strHas lower "does not exist" ||
  strHas lower "no such user" || strHas lower "invalid recipient" ||
  strHas lower "recipient rejected"

/-- The classification the source performs in the `step === 2` branch on the
line it just matched with `^[23]\d{2}` (followed there by writing `QUIT` and
ending the socket). -/
def classifyFinal (lastLine : String) (lastCode : String) : ProbeOutcome :=
  if strLeads lastLine "250" then
    if hasRejectionPhrase (strToLower lastLine) then
      { connected := true, accepted := false, reason := "User does not exist",
        code := some lastCode }
    else
      { connected := true, accepted := true, reason := "Email accepted",
        code := some lastCode }
  else if strLeads lastLine "550" || strLeads lastLine "551" ||
      strLeads lastLine "553" || strLeads lastLine "554" then
    { connected := true, accepted := false, reason := "User does not exist",
      code := some lastCode }
  else if strLeads lastLine "450" || strLeads lastLine "451" ||
      strLeads lastLine "452" then
    { connected := true, accepted := false,
      reason := "Temporary error - greylisting", code := some lastCode }
  else if matches45 lastLine then
    { connected := true, accepted := false, reason := "Email rejected",
      code := some lastCode }
  else
    { connected := true, accepted := false, reason := "Unknown response",
      code := some lastCode }

/-- The outcome the 15-second `setTimeout` resolves with. -/
def timeoutOutcome : ProbeOutcome :=
  { connected := false, accepted := false, reason := "Connection timeout" }

/-- The `data`/`error`/`timeout` handler loop of `testSMTPConnection`.
`step` is the closure variable of the same name, `lastCode` the accumulated
`lastResponseCode` (initially the empty string).  Each `reply` event first
updates `lastCode` via `^(\d{3})`; then:
* on `^[23]\d{2}` with `step < 3` the next command is written; if `step = 2`
  (the command just written being `RCPT TO`) the source immediately writes
  `QUIT`, ends the socket and resolves with the classification of this same
  line — the reply to `MAIL FROM` — without waiting for any further reply;
* otherwise on `^[45]\d{2}` it destroys the socket and resolves with
  `connected = false`;
* any other line leaves the state unchanged. -/
def probeLoop : List NetEvent → Nat → String → ProbeOutcome
  | [], _, _ => timeoutOutcome
  | NetEvent.err msg :: _, _, _ =>
      { connected := false, accepted := false, reason := msg }
  | NetEvent.idleTimeout :: _, _, _ =>
      { connected := false, accepted := false, reason := "Socket timeout" }
  | NetEvent.reply l :: rest, step, lastCode =>
      let code := match codeOf l with
        | some c => c
        | none => lastCode
      if matches23 l then
        if step < 3 then
          if step == 2 then classifyFinal l code
          else probeLoop rest (step + 1) code
        else probeLoop rest step code
      else if matches45 l then
        { connected := false, accepted := false,
          reason := "SMTP error: " ++ l, code := some code }
      else probeLoop rest step code

/-- Source function `testSMTPConnection`: run the dialogue the server delivers.  The probed
address and MX host only determine which dialogue the network oracle supplies,
so the function itself is parameterised by the event list alone. -/
def testSMTPConnection (d : List NetEvent) : ProbeOutcome :=
  probeLoop d 0 ""

/-! ## The verification result and the network oracle -/

/-- The `result` object of `verifyEmail`, Reoon-compatible. -/
structure VerificationResult where
  email : String
  status : String
  reason : String
  is_catch_all : Bool
  is_disposable : Bool
  is_free_email : Bool
  is_role_account : Bool
  mx_records : List String
  smtp_check : Bool
  dns_check : Bool
  confidence_score : Int
  risk_level : String
deriving DecidableEq, Repr

/-- The fresh `result` initialised at the top of `verifyEmail`. -/
def initResult (email : String) : VerificationResult :=
  { email := email, status := "unknown", reason := "", is_catch_all := false,
    is_disposable := false, is_free_email := false, is_role_account := false,
    mx_records := [], smtp_check := false, dns_check := false,
    confidence_score := 0, risk_level := "unknown" }

/-- Result of awaiting a promise: either the value it resolves with, or an
unexpected rejection carrying the error message (caught by the outer
`try`/`catch` of `verifyEmail`). -/
inductive Call (α : Type) where
  | ok (a : α)
  | fault (msg : String)
deriving DecidableEq

/-- The network's behaviour during one verification: what
`resolveMx(domainLower).catch(() => null)` yields (`ok none` models the
caught resolution failure), and, for each address handed to
`testSMTPConnection`, the event sequence its socket delivers. -/
structure Network where
  mx : Call (Option (List MxRecord))
  probe : String → Call (List NetEvent)

/-- Which external operations a run of `verifyEmail` performed: whether the
DNS query was issued, and which addresses were probed over SMTP, in order. -/
structure Trace where
  dnsQueried : Bool
  probed : List String
deriving DecidableEq, Repr

/-! ## The confidence scorer (`calculateHeuristicConfidence`) -/

/-- The regex `/^[a-z0-9]{20,}$/` ("random token"). -/
def isRandomToken (localPart : String) : Bool :=
  strLen localPart ≥ 20 && strAll localPart isLowerAlnum

/-- The disjunction `/^[a-z]+\.[a-z]+$/.test(localPart) ||
/^[a-z]+$/.test(localPart)` ("proper name format"). -/
def isNamePattern (localPart : String) : Bool :=
  (match splitOnChar '.' localPart with
   | [a, b] =>
       (a != "") && (b != "") && strAll a isLowerAlpha && strAll b isLowerAlpha
   | _ => false) ||
  ((localPart != "") && strAll localPart isLowerAlpha)

/-- Source function `calculateHeuristicConfidence`, accumulating into `score`
in the source's order and clamping with `Math.max(0, Math.min(100, score))`. -/
def calculateHeuristicConfidence (email : String) (result : VerificationResult)
    (mailProvider : String) : Int :=
  let score0 : Int := 0
  let score1 := if result.smtp_check then score0 + 40 else score0
  let score2 := if result.dns_check then score1 + 20 else score1
  let score3 :=
    if mailProvider == "google_workspace" || mailProvider == "microsoft365" then
      score2 + 20
    else if mailProvider == "corporate" then score2 + 15
    else score2
  let localPart := localPartOf email
  let score4 := if result.is_role_account then score3 - 10 else score3
  let score5 := if strLen localPart < 3 then score4 - 10 else score4
  let score6 := if isRandomToken localPart then score5 - 15 else score5
  let score7 := if isNamePattern localPart then score6 + 10 else score6
  let score8 := if result.is_free_email then score7 - 5 else score7
  max 0 (min 100 score8)

/-! ## `verifyEmail` -/

/-- The early return taken when `resolveMx` fails or yields no records. -/
def noMxResult (r : VerificationResult) : VerificationResult :=
  { r with
      status := "invalid"
      reason := "No MX records found"
      dns_check := false
      confidence_score := 0
      risk_level := "high" }

/-- The outcome type of the `try` block of `verifyEmail`: an early `return`
carries the result object and the run's `Trace`; an unexpected promise
rejection escapes to the `catch` handler carrying the message, the `result`
object as mutated so far, and the trace so far. -/
abbrev VerifyOutcome :=
  Except (String × VerificationResult × Trace) (VerificationResult × Trace)

/-- The catch-all test of `verifyEmail` (the final segment of the `try`
block): two `generateRandomEmail(domainLower)` probes, counted with
`randomTests.filter(test => test.accepted).length`, classified catch-all only
when all of them were accepted.  `generateRandomEmail` is
`crypto.randomBytes(16).toString('hex') + '@' + domain`; the hex strings are
the oracle values `rnd 0` and `rnd 1`. -/
def catchAllStage (email domainLower : String) (r5 : VerificationResult)
    (net : Network) (rnd : Nat → String) : VerifyOutcome :=
  let rand0 := rnd 0 ++ "@" ++ domainLower
  let rand1 := rnd 1 ++ "@" ++ domainLower
  match net.probe rand0 with
  | Call.fault msg =>
      Except.error (msg, r5, { dnsQueried := true, probed := [email] })
  | Call.ok d0 =>
      let t0 := testSMTPConnection d0
      match net.probe rand1 with
      | Call.fault msg =>
          Except.error (msg, r5, { dnsQueried := true, probed := [email, rand0] })
      | Call.ok d1 =>
          let t1 := testSMTPConnection d1
          let acceptedCount : Nat :=
            (if t0.accepted then 1 else 0) + (if t1.accepted then 1 else 0)
          if acceptedCount == 2 then
            Except.ok ({ r5 with
                           is_catch_all := true
                           status := "catch_all"
                           reason := "Domain accepts all emails (catch-all)"
                           confidence_score := 60
                           risk_level := "medium" },
                       { dnsQueried := true, probed := [email, rand0, rand1] })
          else
            Except.ok ({ r5 with
                           status := "valid"
                           reason := "Email verified successfully"
                           confidence_score := 90
                           risk_level := "low" },
                       { dnsQueried := true, probed := [email, rand0, rand1] })

/-- The heuristic-scoring segment of `verifyEmail`, taken when the catch-all
test is skipped: confidence from `calculateHeuristicConfidence` and the
`>= 75` / `>= 50` / otherwise classification. -/
def heuristicStage (email mailProvider : String) (r5 : VerificationResult) :
    VerificationResult :=
  let confidence := calculateHeuristicConfidence email r5 mailProvider
  let r6 := { r5 with confidence_score := confidence }
  if confidence ≥ 75 then
    { r6 with
        status := "valid"
        reason := "Email accepted by mail server"
        risk_level := "low" }
  else if confidence ≥ 50 then
    { r6 with
        status := "valid"
        reason := "Likely valid (corporate mail server)"
        risk_level := "medium" }
  else
    { r6 with
        status := "unknown"
        reason := "Cannot verify definitively"
        risk_level := "medium" }

/-- The segment of `verifyEmail` entered once the real address was accepted:
skip the catch-all test when the caller asked to or the provider is
`google_workspace`/`microsoft365`/`corporate`, otherwise run it. -/
def acceptedStage (email : String) (skipCatchAll : Bool)
    (domainLower mailProvider : String)
    (r5 : VerificationResult) (net : Network) (rnd : Nat → String) :
    VerifyOutcome :=
  if skipCatchAll || mailProvider == "google_workspace" ||
      mailProvider == "microsoft365" || mailProvider == "corporate" then
    Except.ok (heuristicStage email mailProvider r5,
               { dnsQueried := true, probed := [email] })
  else
    catchAllStage email domainLower r5 net rnd

/-- The SMTP segment of `verifyEmail`: probe the real address on the
top-priority exchanger, return `unknown`/50 when the probe could not connect,
`invalid`/10 when it was rejected, and otherwise continue. -/
def smtpStage (email : String) (skipCatchAll : Bool)
    (domainLower mailProvider : String)
    (r4 : VerificationResult) (net : Network) (rnd : Nat → String) :
    VerifyOutcome :=
  match net.probe email with
  | Call.fault msg =>
      Except.error (msg, r4, { dnsQueried := true, probed := [] })
  | Call.ok d =>
      let realCheck := testSMTPConnection d
      if !realCheck.connected then
        Except.ok ({ r4 with
                       status := "unknown"
                       reason := "Could not connect to mail server"
                       confidence_score := 50
                       risk_level := "medium" },
                   { dnsQueried := true, probed := [email] })
      else
        let r5 := { r4 with smtp_check := true }
        if !realCheck.accepted then
          Except.ok ({ r5 with
                         status := "invalid"
                         reason := if realCheck.reason == "" then "Email does not exist" else realCheck.reason
                         confidence_score := 10
                         risk_level := "high" },
                     { dnsQueried := true, probed := [email] })
        else
          acceptedStage email skipCatchAll domainLower mailProvider r5 net rnd

/-- The DNS segment of `verifyEmail`: resolve the MX records, stop when there
is no route, otherwise sort them by priority, record the hostname list,
fingerprint the provider, and continue with the SMTP probe. -/
def dnsStage (email : String) (skipCatchAll : Bool) (domainLower : String)
    (r3 : VerificationResult) (net : Network) (rnd : Nat → String) :
    VerifyOutcome :=
  match net.mx with
  | Call.fault msg =>
      Except.error (msg, r3, { dnsQueried := true, probed := [] })
  | Call.ok none =>
      Except.ok (noMxResult r3, { dnsQueried := true, probed := [] })
  | Call.ok (some recs) =>
      if recs.isEmpty then
        Except.ok (noMxResult r3, { dnsQueried := true, probed := [] })
      else
        let sorted := sortByPriority recs
        let r4 := { r3 with
                      dns_check := true
                      mx_records := sorted.map MxRecord.exchange }
        let mailProvider := detectMailProvider r4.mx_records
        smtpStage email skipCatchAll domainLower mailProvider r4 net rnd

/-- The `try` block of `verifyEmail`: format check, role-account,
disposable-domain and free-provider lookups, then the DNS/SMTP stages. -/
def verifyEmailAux (email : String) (skipCatchAll : Bool) (net : Network)
    (rnd : Nat → String) : VerifyOutcome :=
  let r0 := initResult email
  if !isValidFormat email then
    Except.ok ({ r0 with
                   status := "invalid"
                   reason := "Invalid email format"
                   confidence_score := 0 },
               { dnsQueried := false, probed := [] })
  else
    let localPart := localPartOf email
    let domainLower := domainLowerOf email
    let r1 := { r0 with is_role_account := isRoleAccount localPart }
    let r2 := { r1 with is_disposable := isDisposableDomain domainLower }
    if r2.is_disposable then
      Except.ok ({ r2 with
                     status := "invalid"
                     reason := "Disposable email address"
                     confidence_score := 0
                     risk_level := "high" },
                 { dnsQueried := false, probed := [] })
    else
      let r3 := { r2 with is_free_email := isFreeEmailProvider domainLower }
      dnsStage email skipCatchAll domainLower r3 net rnd


/-- Source function `verifyEmail`: the `try` body value, with the `catch` handler folding an
unexpected fault into the partially mutated `result` exactly as the source
does. -/
def verifyEmail (email : String) (skipCatchAll : Bool) (net : Network)
    (rnd : Nat → String) : VerificationResult :=
  match verifyEmailAux email skipCatchAll net rnd with
  | Except.ok (r, _) => r
  | Except.error (msg, r, _) =>
      { r with
          status := "unknown"
          reason := "Verification error: " ++ msg
          confidence_score := 50
          risk_level := "medium" }

/-- The external operations a run of `verifyEmail` performs. -/
def traceOf : VerifyOutcome → Trace
  | Except.ok (_, t) => t
  | Except.error (_, _, t) => t

/-- The result object carried by an outcome, before the catch handler's
overwrite in the fault case. -/
def outcomeResult : VerifyOutcome → VerificationResult
  | Except.ok (r, _) => r
  | Except.error (_, r, _) => r

def verifyTrace (email : String) (skipCatchAll : Bool) (net : Network)
    (rnd : Nat → String) : Trace :=
  traceOf (verifyEmailAux email skipCatchAll net rnd)

/-- The invariant of claim C7 on a result record: the confidence score is in
[0, 100] and the catch-all flag agrees with the catch-all status. -/
def resultInv (r : VerificationResult) : Prop :=
  0 ≤ r.confidence_score ∧ r.confidence_score ≤ 100 ∧
    (r.is_catch_all = true ↔ r.status = "catch_all")

/-- The same invariant lifted over the try block's outcome: a normal return
satisfies it outright; an outcome escaping to the catch handler has its
catch-all flag still clear, so the handler's fold (score 50, status unknown)
satisfies it too. -/
def outcomeInv : VerifyOutcome → Prop
  | Except.ok (r, _) => resultInv r
  | Except.error (_, r, _) => r.is_catch_all = false

/-! ## The spec's scorer formula, for the refinement comparison of C5 -/

/-- Modelled from the spec's §4.6 wording, for comparison against
`calculateHeuristicConfidence`: the clamp to [0,100] of a sum of independent
terms — +40 if the SMTP stage was reached, +20 if DNS succeeded, +20 for
`google_workspace`/`microsoft365` or +15 for `corporate`, −10 for a role
account, −10 for a local part shorter than 3 characters, −15 for a random
token, +10 for a name-shaped local part, −5 for a free-email domain. -/
def specHeuristicScore (localPart provider : String)
    (smtpReached dnsOk isRole isFree : Bool) : Int :=
  max 0 (min 100
    ((if smtpReached then 40 else 0) + (if dnsOk then 20 else 0) +
     (if provider == "google_workspace" || provider == "microsoft365" then 20
      else if provider == "corporate" then 15 else 0) +
     (if isRole then -10 else 0) +
     (if strLen localPart < 3 then -10 else 0) +
     (if isRandomToken localPart then -15 else 0) +
     (if isNamePattern localPart then 10 else 0) +
     (if isFree then -5 else 0)))

/-- The `result` object as it stands after the lexical/policy filters, on the
path where the format check passed and the domain is not disposable. -/
def filteredResult (email : String) : VerificationResult :=
  { initResult email with
      is_role_account := isRoleAccount (localPartOf email)
      is_disposable := isDisposableDomain (domainLowerOf email)
      is_free_email := isFreeEmailProvider (domainLowerOf email) }

/-- The `result` object as it stands once MX resolution produced the nonempty
record list `recs`, on the same path. -/
def dnsResult (email : String) (recs : List MxRecord) : VerificationResult :=
  { filteredResult email with
      dns_check := true
      mx_records := (sortByPriority recs).map MxRecord.exchange }

/-! ## Concrete dialogues, networks and random strings for the witnesses -/

/-- A 2xx greeting line. -/
def greetOk : NetEvent := NetEvent.reply "220 mx.example.com ESMTP"

/-- A 2xx reply to `HELO`. -/
def heloOk : NetEvent := NetEvent.reply "250 mx.example.com Hello"

/-- A 2xx reply to `MAIL FROM`. -/
def mailOk : NetEvent := NetEvent.reply "250 2.1.0 Sender ok"

/-- Greeting, `HELO` and `MAIL FROM` accepted; `RCPT TO` answered `550`. -/
def rcptRejectDialogue : List NetEvent :=
  [greetOk, heloOk, mailOk, NetEvent.reply "550 No such user"]

/-- Greeting, `HELO` and `MAIL FROM` accepted; `RCPT TO` answered `250`. -/
def rcptAcceptDialogue : List NetEvent :=
  [greetOk, heloOk, mailOk, NetEvent.reply "250 2.1.5 Recipient ok"]

/-- Greeting, `HELO` and `MAIL FROM` accepted; the server then goes silent,
so no reply to `RCPT TO` ever arrives within the 15-second bound. -/
def rcptSilentDialogue : List NetEvent := [greetOk, heloOk, mailOk]

/-- A connection that fails at the transport level. -/
def refusedDialogue : List NetEvent :=
  [NetEvent.err "connect ECONNREFUSED 192.0.2.1:25"]

/-- Fixed stand-ins for the two 128-bit random hex strings. -/
def hexRnd : Nat → String := fun i =>
  if i == 0 then "0123456789abcdef0123456789abcdef"
  else "fedcba9876543210fedcba9876543210"

/-- An MX set fingerprinting as `zoho` (neither skip-listed nor consumer). -/
def zohoMx : List MxRecord := [{ exchange := "mx.zohohost.example", priority := 10 }]

/-- An MX set fingerprinting as `google_workspace`. -/
def googleMx : List MxRecord := [{ exchange := "aspmx.l.google.com", priority := 1 }]

/-- An MX set fingerprinting as `corporate`. -/
def corpMx : List MxRecord := [{ exchange := "mail.acme-corp.example", priority := 5 }]

/-- The C1 scenario: an exchanger that replies `550 No such user` to
`RCPT TO` for the specific mailbox `user@example.com` and accepts every other
recipient, on a `zoho`-fingerprinted domain. -/
def c1Network : Network :=
  { mx := Call.ok (some zohoMx)
    probe := fun a =>
      if a == "user@example.com" then Call.ok rcptRejectDialogue
      else Call.ok rcptAcceptDialogue }

/-- A network whose exchanger accepts every dialogue (used for C4). -/
def c4Network : Network :=
  { mx := Call.ok (some zohoMx), probe := fun _ => Call.ok rcptAcceptDialogue }

/-- A `corporate` domain accepting the probe (used for C5). -/
def c5Network : Network :=
  { mx := Call.ok (some corpMx), probe := fun _ => Call.ok rcptAcceptDialogue }

/-- A `google_workspace` domain accepting the probe (used for C6). -/
def c6Network : Network :=
  { mx := Call.ok (some googleMx), probe := fun _ => Call.ok rcptAcceptDialogue }

/-- A network whose MX resolution fails (used for C3 and C8). -/
def noMxNetwork : Network :=
  { mx := Call.ok none, probe := fun _ => Call.ok [] }

/-- Two MX records supplied out of priority order (used for C8). -/
def twoMx : List MxRecord :=
  [{ exchange := "backup.example.net", priority := 20 },
   { exchange := "primary.example.net", priority := 10 }]

/-- A network resolving to `twoMx` and accepting the probe (used for C8). -/
def c8Network : Network :=
  { mx := Call.ok (some twoMx), probe := fun _ => Call.ok rcptAcceptDialogue }

/-- A network whose `resolveMx` promise rejects unexpectedly (used for C9). -/
def mxFaultNetwork : Network :=
  { mx := Call.fault "dns.resolveMx exploded", probe := fun _ => Call.ok [] }

/-- The C10 scenario: the real address is accepted, the first synthetic probe
cannot even connect, the second is accepted. -/
def c10Network : Network :=
  { mx := Call.ok (some zohoMx)
    probe := fun a =>
      if a == hexRnd 0 ++ "@" ++ "example.com" then Call.ok refusedDialogue
      else Call.ok rcptAcceptDialogue }

/-! ## Helper lemmas -/

/-- Inserting into a list is a permutation of consing. -/
theorem insertByPriority_perm (x : MxRecord) (l : List MxRecord) :
    (insertByPriority x l).Perm (x :: l) := by
  induction l with
  | nil => simp [insertByPriority]
  | cons y ys ih =>
      by_cases h : x.priority ≤ y.priority
      · simp [insertByPriority, h]
      · simp only [insertByPriority, if_neg h]
        exact (ih.cons y).trans (List.Perm.swap x y ys)

/-- The sort is a permutation of its input. -/
theorem sortByPriority_perm (l : List MxRecord) : (sortByPriority l).Perm l := by
  induction l with
  | nil => simp [sortByPriority]
  | cons x xs ih =>
      exact (insertByPriority_perm x (sortByPriority xs)).trans (ih.cons x)

/-- Inserting preserves being sorted by priority. -/
theorem insertByPriority_pairwise (x : MxRecord) (l : List MxRecord)
    (h : l.Pairwise (fun a b => a.priority ≤ b.priority)) :
    (insertByPriority x l).Pairwise (fun a b => a.priority ≤ b.priority) := by
  induction l with
  | nil => simp [insertByPriority]
  | cons y ys ih =>
      rcases List.pairwise_cons.mp h with ⟨hy, hys⟩
      by_cases hxy : x.priority ≤ y.priority
      · simp only [insertByPriority, if_pos hxy]
        refine List.pairwise_cons.mpr ⟨?_, h⟩
        intro z hz
        rcases List.mem_cons.mp hz with rfl | hz'
        · exact hxy
        · exact le_trans hxy (hy z hz')
      · simp only [insertByPriority, if_neg hxy]
        refine List.pairwise_cons.mpr ⟨?_, ih hys⟩
        intro z hz
        have hz2 := (insertByPriority_perm x ys).mem_iff.mp hz
        rcases List.mem_cons.mp hz2 with rfl | hz'
        · exact le_of_not_le hxy
        · exact hy z hz'

/-- The sort output is ascending by priority. -/
theorem sortByPriority_pairwise (l : List MxRecord) :
    (sortByPriority l).Pairwise (fun a b => a.priority ≤ b.priority) := by
  induction l with
  | nil => simp [sortByPriority]
  | cons x xs ih => exact insertByPriority_pairwise x (sortByPriority xs) ih

/-- The decisive classification always reports `connected = true`. -/
theorem classifyFinal_connected (l c : String) :
    (classifyFinal l c).connected = true := by
  unfold classifyFinal
  repeat' split
  all_goals rfl

/-- A probe outcome with `connected = false` also has `accepted = false`:
every resolution path of `testSMTPConnection` that reports no connection
reports no acceptance. -/
theorem probeLoop_connected_of_accepted (d : List NetEvent) :
    ∀ (s : Nat) (c : String),
      (probeLoop d s c).accepted = true → (probeLoop d s c).connected = true := by
  induction d with
  | nil => intro s c h; exact absurd h (by simp [probeLoop, timeoutOutcome])
  | cons e rest ih =>
      intro s c h
      cases e with
      | err m => exact absurd h (by simp [probeLoop])
      | idleTimeout => exact absurd h (by simp [probeLoop])
      | reply l =>
          simp only [probeLoop] at h ⊢
          by_cases h23 : matches23 l = true
          · by_cases hs3 : s < 3
            · by_cases hs2 : (s == 2) = true
              · simp only [h23, hs3, hs2, if_true] at h ⊢
                exact classifyFinal_connected l _
              · simp only [h23, hs3, hs2, if_true, if_neg, if_false] at h ⊢
                exact ih _ _ h
            · simp only [h23, hs3, if_true, if_neg, if_false] at h ⊢
              exact ih _ _ h
          · by_cases h45 : matches45 l = true
            · simp [h23, h45] at h
            · simp only [h23, h45, if_neg, if_false] at h ⊢
              exact ih _ _ h

/-- Contrapositive form used by C10. -/
theorem probe_not_connected_not_accepted (d : List NetEvent)
    (h : (testSMTPConnection d).connected = false) :
    (testSMTPConnection d).accepted = false := by
  cases hacc : (testSMTPConnection d).accepted with
  | false => rfl
  | true =>
      have hc : (testSMTPConnection d).connected = true :=
        probeLoop_connected_of_accepted d 0 "" hacc
      rw [hc] at h
      exact absurd h (by simp)

/-- The clamp at the end of the scorer keeps the value in [0, 100]. -/
theorem calculateHeuristicConfidence_bounds (email : String)
    (r : VerificationResult) (mp : String) :
    0 ≤ calculateHeuristicConfidence email r mp ∧
      calculateHeuristicConfidence email r mp ≤ 100 := by
  unfold calculateHeuristicConfidence
  constructor
  · exact le_max_left 0 _
  · exact max_le (by norm_num) (min_le_left _ _)

/-- On the path where the format check passes and the domain is not
disposable, the try block proceeds to the DNS stage carrying
`filteredResult`. -/
theorem aux_eq_dnsStage (email : String) (skipCatchAll : Bool) (net : Network)
    (rnd : Nat → String)
    (hfmt : isValidFormat email = true)
    (hdisp : isDisposableDomain (domainLowerOf email) = false) :
    verifyEmailAux email skipCatchAll net rnd =
      dnsStage email skipCatchAll (domainLowerOf email) (filteredResult email)
        net rnd := by
  unfold verifyEmailAux filteredResult
  simp [hfmt, hdisp, initResult]

/-- When MX resolution yields a nonempty record list, the DNS stage proceeds
to the SMTP stage with the sorted hostname list recorded. -/
theorem dnsStage_eq_smtpStage (email : String) (skipCatchAll : Bool)
    (domainLower : String) (r3 : VerificationResult) (net : Network)
    (rnd : Nat → String) (recs : List MxRecord)
    (hmx : net.mx = Call.ok (some recs)) (hne : recs ≠ []) :
    dnsStage email skipCatchAll domainLower r3 net rnd =
      smtpStage email skipCatchAll domainLower
        (detectMailProvider ((sortByPriority recs).map MxRecord.exchange))
        { r3 with
            dns_check := true
            mx_records := (sortByPriority recs).map MxRecord.exchange }
        net rnd := by
  have hie : recs.isEmpty = false := by
    cases recs with
    | nil => exact absurd rfl hne
    | cons a as => rfl
  unfold dnsStage
  rw [hmx]
  simp [hie]

/-- When the real-address probe connects and is accepted, the SMTP stage
proceeds with `smtp_check` set. -/
theorem smtpStage_eq_acceptedStage (email : String) (skipCatchAll : Bool)
    (domainLower mailProvider : String) (r4 : VerificationResult)
    (net : Network) (rnd : Nat → String) (d : List NetEvent)
    (hpe : net.probe email = Call.ok d)
    (hconn : (testSMTPConnection d).connected = true)
    (hacc : (testSMTPConnection d).accepted = true) :
    smtpStage email skipCatchAll domainLower mailProvider r4 net rnd =
      acceptedStage email skipCatchAll domainLower mailProvider
        { r4 with smtp_check := true } net rnd := by
  unfold smtpStage
  rw [hpe]
  simp [hconn, hacc]

/-- When the skip condition holds, the accepted stage scores heuristically. -/
theorem acceptedStage_skip_eq (email : String) (skipCatchAll : Bool)
    (domainLower mailProvider : String) (r5 : VerificationResult)
    (net : Network) (rnd : Nat → String)
    (h : (skipCatchAll || mailProvider == "google_workspace" ||
        mailProvider == "microsoft365" || mailProvider == "corporate") = true) :
    acceptedStage email skipCatchAll domainLower mailProvider r5 net rnd =
      Except.ok (heuristicStage email mailProvider r5,
                 { dnsQueried := true, probed := [email] }) := by
  unfold acceptedStage
  simp [h]

/-- When the skip condition fails, the accepted stage runs the catch-all
test. -/
theorem acceptedStage_test_eq (email : String) (skipCatchAll : Bool)
    (domainLower mailProvider : String) (r5 : VerificationResult)
    (net : Network) (rnd : Nat → String)
    (h : (skipCatchAll || mailProvider == "google_workspace" ||
        mailProvider == "microsoft365" || mailProvider == "corporate") = false) :
    acceptedStage email skipCatchAll domainLower mailProvider r5 net rnd =
      catchAllStage email domainLower r5 net rnd := by
  unfold acceptedStage
  simp [h]

/-- The catch-all test, evaluated under known probe dialogues: catch-all
exactly when both synthetic probes are accepted. -/
theorem catchAllStage_eval (email domainLower : String)
    (r5 : VerificationResult) (net : Network) (rnd : Nat → String)
    (d0 d1 : List NetEvent)
    (h0 : net.probe (rnd 0 ++ "@" ++ domainLower) = Call.ok d0)
    (h1 : net.probe (rnd 1 ++ "@" ++ domainLower) = Call.ok d1) :
    catchAllStage email domainLower r5 net rnd =
      (if (testSMTPConnection d0).accepted && (testSMTPConnection d1).accepted then
        Except.ok ({ r5 with
                       is_catch_all := true
                       status := "catch_all"
                       reason := "Domain accepts all emails (catch-all)"
                       confidence_score := 60
                       risk_level := "medium" },
                   { dnsQueried := true
                     probed := [email, rnd 0 ++ "@" ++ domainLower,
                                rnd 1 ++ "@" ++ domainLower] })
      else
        Except.ok ({ r5 with
                       status := "valid"
                       reason := "Email verified successfully"
                       confidence_score := 90
                       risk_level := "low" },
                   { dnsQueried := true
                     probed := [email, rnd 0 ++ "@" ++ domainLower,
                                rnd 1 ++ "@" ++ domainLower] })) := by
  unfold catchAllStage
  simp only [h0, h1]
  cases ha0 : (testSMTPConnection d0).accepted <;>
    cases ha1 : (testSMTPConnection d1).accepted <;>
      simp [ha0, ha1]

/-! ## Claims -/

/-- C1: claimed — a dialogue whose greeting, HELO and MAIL FROM replies are
2xx and whose RCPT TO reply leads with 550 makes `testSMTPConnection` return
`connected=true, accepted=false, reason='User does not exist'`, and
`verifyEmail` on such a mailbox return `status='invalid'` with a reason
containing "does not exist".  The code violates this: it resolves on the
reply to MAIL FROM (when `step === 2` it writes `RCPT TO` and `QUIT` and
classifies the line it just matched, never reading the RCPT TO reply), so the
probe reports `accepted=true, reason='Email accepted'` and `verifyEmail`
classifies the domain catch-all. -/
theorem c1_rcpt_reply_ignored_eval :
    testSMTPConnection rcptRejectDialogue =
      { connected := true, accepted := true, reason := "Email accepted",
        code := some "250" } ∧
    (verifyEmail "user@example.com" false c1Network hexRnd).status = "catch_all" ∧
    strHas (verifyEmail "user@example.com" false c1Network hexRnd).reason
      "does not exist" = false := by
  decide

/-- C2: claimed — a server that accepts greeting/HELO/MAIL FROM with 2xx but
never replies to RCPT TO within the 15-second bound makes
`testSMTPConnection` return `connected=false, reason='Connection timeout'`.
The code violates this: the 15-second timer is cleared and the promise
resolved with `accepted=true` as soon as the MAIL FROM reply arrives, so the
missing RCPT TO reply is never waited for.  (Silence one stage earlier — no
reply to MAIL FROM — does produce the timeout outcome, locating the
divergence exactly at the RCPT stage.) -/
theorem c2_rcpt_timeout_eval :
    testSMTPConnection rcptSilentDialogue =
      { connected := true, accepted := true, reason := "Email accepted",
        code := some "250" } ∧
    (testSMTPConnection rcptSilentDialogue).reason ≠ "Connection timeout" ∧
    testSMTPConnection [greetOk, heloOk] = timeoutOutcome := by
  decide

/-- C3 (counterexample): `plainaddress` fails the shape check and
`verifyEmail` does return `status='invalid'` and `confidence_score=0`, but
`risk_level` is left at its initial value `'unknown'`, not set to `'high'` as
the claim states. -/
theorem c3_risk_level_counterexample :
    isValidFormat "plainaddress" = false ∧
    (verifyEmail "plainaddress" false noMxNetwork hexRnd).status = "invalid" ∧
    (verifyEmail "plainaddress" false noMxNetwork hexRnd).confidence_score = 0 ∧
    (verifyEmail "plainaddress" false noMxNetwork hexRnd).risk_level = "unknown" ∧
    (verifyEmail "plainaddress" false noMxNetwork hexRnd).risk_level ≠ "high" := by
  decide

/-- C3 (amended): for every address failing the basic shape check,
`verifyEmail` returns `status='invalid'`, `confidence_score=0` and
`risk_level='unknown'` (the initialisation value — the format branch never
touches `risk_level`), and no network operation is attempted: the DNS query
is not issued, no address is probed, and the result is independent of the
network and randomness oracles. -/
theorem c3_invalid_format_amended (email : String) (skipCatchAll : Bool)
    (net : Network) (rnd : Nat → String)
    (h : isValidFormat email = false) :
    verifyEmail email skipCatchAll net rnd =
      { email := email, status := "invalid", reason := "Invalid email format",
        is_catch_all := false, is_disposable := false, is_free_email := false,
        is_role_account := false, mx_records := [], smtp_check := false,
        dns_check := false, confidence_score := 0, risk_level := "unknown" } ∧
    verifyTrace email skipCatchAll net rnd =
      { dnsQueried := false, probed := [] } := by
  unfold verifyEmail verifyTrace verifyEmailAux
  simp [h, initResult, traceOf]

/-- C3 witness: the amended statement at the concrete failing address. -/
theorem c3_invalid_format_amended_witness :
    isValidFormat "plainaddress" = false ∧
    (verifyEmail "plainaddress" false noMxNetwork hexRnd).risk_level = "unknown" :=
  ⟨by decide,
   by rw [(c3_invalid_format_amended "plainaddress" false noMxNetwork hexRnd
       (by decide)).1]⟩

/-- C4: in every verification that reaches the catch-all discriminator (the
real-address probe connected and accepted, the discriminator neither
requested skipped nor provider-skipped), if both synthetic random-address
probes are accepted the result is `status='catch_all'`, `is_catch_all=true`,
`confidence_score=60`, `risk_level='medium'`; if at least one synthetic probe
is not accepted the result is `status='valid'`, `confidence_score=90`,
`risk_level='low'`. -/
theorem c4_catch_all_discriminator (email : String) (net : Network)
    (rnd : Nat → String) (recs : List MxRecord) (d d0 d1 : List NetEvent)
    (hfmt : isValidFormat email = true)
    (hdisp : isDisposableDomain (domainLowerOf email) = false)
    (hmx : net.mx = Call.ok (some recs)) (hne : recs ≠ [])
    (hprov1 : detectMailProvider ((sortByPriority recs).map MxRecord.exchange) ≠
      "google_workspace")
    (hprov2 : detectMailProvider ((sortByPriority recs).map MxRecord.exchange) ≠
      "microsoft365")
    (hprov3 : detectMailProvider ((sortByPriority recs).map MxRecord.exchange) ≠
      "corporate")
    (hpe : net.probe email = Call.ok d)
    (hconn : (testSMTPConnection d).connected = true)
    (hacc : (testSMTPConnection d).accepted = true)
    (hp0 : net.probe (rnd 0 ++ "@" ++ domainLowerOf email) = Call.ok d0)
    (hp1 : net.probe (rnd 1 ++ "@" ++ domainLowerOf email) = Call.ok d1) :
    ((testSMTPConnection d0).accepted = true ∧
        (testSMTPConnection d1).accepted = true →
      (verifyEmail email false net rnd).status = "catch_all" ∧
      (verifyEmail email false net rnd).is_catch_all = true ∧
      (verifyEmail email false net rnd).confidence_score = 60 ∧
      (verifyEmail email false net rnd).risk_level = "medium") ∧
    ((testSMTPConnection d0).accepted = false ∨
        (testSMTPConnection d1).accepted = false →
      (verifyEmail email false net rnd).status = "valid" ∧
      (verifyEmail email false net rnd).is_catch_all = false ∧
      (verifyEmail email false net rnd).confidence_score = 90 ∧
      (verifyEmail email false net rnd).risk_level = "low") := by
  have hskip : ((false : Bool) ||
      detectMailProvider ((sortByPriority recs).map MxRecord.exchange) ==
        "google_workspace" ||
      detectMailProvider ((sortByPriority recs).map MxRecord.exchange) ==
        "microsoft365" ||
      detectMailProvider ((sortByPriority recs).map MxRecord.exchange) ==
        "corporate") = false := by
    simp [hprov1, hprov2, hprov3]
  have haux := ((((aux_eq_dnsStage email false net rnd hfmt hdisp).trans
    (dnsStage_eq_smtpStage email false (domainLowerOf email)
      (filteredResult email) net rnd recs hmx hne)).trans
    (smtpStage_eq_acceptedStage email false (domainLowerOf email)
      (detectMailProvider ((sortByPriority recs).map MxRecord.exchange))
      { filteredResult email with
          dns_check := true
          mx_records := (sortByPriority recs).map MxRecord.exchange }
      net rnd d hpe hconn hacc)).trans
    (acceptedStage_test_eq email false (domainLowerOf email)
      (detectMailProvider ((sortByPriority recs).map MxRecord.exchange))
      _ net rnd hskip)).trans
    (catchAllStage_eval email (domainLowerOf email) _ net rnd d0 d1 hp0 hp1)
  constructor
  · rintro ⟨ha0, ha1⟩
    rw [ha0, ha1] at haux
    simp only [Bool.and_self, if_true] at haux
    unfold verifyEmail
    rw [haux]
    refine ⟨rfl, rfl, rfl, rfl⟩
  · intro hor
    have hc : ((testSMTPConnection d0).accepted &&
        (testSMTPConnection d1).accepted) = false := by
      rcases hor with h | h <;> simp [h]
    rw [hc] at haux
    simp only [Bool.false_eq_true, if_false] at haux
    unfold verifyEmail
    rw [haux]
    refine ⟨rfl, rfl, rfl, rfl⟩

/-- C4 witness: the catch-all branch at a concrete `zoho` domain whose
exchanger accepts every recipient dialogue. -/
theorem c4_catch_all_discriminator_witness :
    (verifyEmail "user@example.com" false c4Network hexRnd).status =
      "catch_all" ∧
    (verifyEmail "user@example.com" false c4Network hexRnd).is_catch_all =
      true ∧
    (verifyEmail "user@example.com" false c4Network hexRnd).confidence_score =
      60 ∧
    (verifyEmail "user@example.com" false c4Network hexRnd).risk_level =
      "medium" :=
  (c4_catch_all_discriminator "user@example.com" c4Network hexRnd zohoMx
    rcptAcceptDialogue rcptAcceptDialogue rcptAcceptDialogue
    (by decide) (by decide) (by decide) (by decide)
    (by decide) (by decide) (by decide) (by decide) (by decide) (by decide)
    (by decide) (by decide)).1 ⟨by decide, by decide⟩

/-- C10: in the catch-all discriminator a synthetic probe counts as rejected
whenever `accepted = false`, for any cause — including a probe that fails to
connect at all.  If the real address was accepted and at least one of the two
synthetic probes returns `connected = false`, the result is `status='valid'`,
`confidence_score=90`, `risk_level='low'`. -/
theorem c10_transport_failure_is_rejection (email : String) (net : Network)
    (rnd : Nat → String) (recs : List MxRecord) (d d0 d1 : List NetEvent)
    (hfmt : isValidFormat email = true)
    (hdisp : isDisposableDomain (domainLowerOf email) = false)
    (hmx : net.mx = Call.ok (some recs)) (hne : recs ≠ [])
    (hprov1 : detectMailProvider ((sortByPriority recs).map MxRecord.exchange) ≠
      "google_workspace")
    (hprov2 : detectMailProvider ((sortByPriority recs).map MxRecord.exchange) ≠
      "microsoft365")
    (hprov3 : detectMailProvider ((sortByPriority recs).map MxRecord.exchange) ≠
      "corporate")
    (hpe : net.probe email = Call.ok d)
    (hconn : (testSMTPConnection d).connected = true)
    (hacc : (testSMTPConnection d).accepted = true)
    (hp0 : net.probe (rnd 0 ++ "@" ++ domainLowerOf email) = Call.ok d0)
    (hp1 : net.probe (rnd 1 ++ "@" ++ domainLowerOf email) = Call.ok d1)
    (hfail : (testSMTPConnection d0).connected = false ∨
      (testSMTPConnection d1).connected = false) :
    (verifyEmail email false net rnd).status = "valid" ∧
    (verifyEmail email false net rnd).confidence_score = 90 ∧
    (verifyEmail email false net rnd).risk_level = "low" := by
  have hrej : ((testSMTPConnection d0).accepted &&
      (testSMTPConnection d1).accepted) = false := by
    rcases hfail with h | h
    · simp [probe_not_connected_not_accepted d0 h]
    · simp [probe_not_connected_not_accepted d1 h]
  have hskip : ((false : Bool) ||
      detectMailProvider ((sortByPriority recs).map MxRecord.exchange) ==
        "google_workspace" ||
      detectMailProvider ((sortByPriority recs).map MxRecord.exchange) ==
        "microsoft365" ||
      detectMailProvider ((sortByPriority recs).map MxRecord.exchange) ==
        "corporate") = false := by
    simp [hprov1, hprov2, hprov3]
  have haux := ((((aux_eq_dnsStage email false net rnd hfmt hdisp).trans
    (dnsStage_eq_smtpStage email false (domainLowerOf email)
      (filteredResult email) net rnd recs hmx hne)).trans
    (smtpStage_eq_acceptedStage email false (domainLowerOf email)
      (detectMailProvider ((sortByPriority recs).map MxRecord.exchange))
      { filteredResult email with
          dns_check := true
          mx_records := (sortByPriority recs).map MxRecord.exchange }
      net rnd d hpe hconn hacc)).trans
    (acceptedStage_test_eq email false (domainLowerOf email)
      (detectMailProvider ((sortByPriority recs).map MxRecord.exchange))
      _ net rnd hskip)).trans
    (catchAllStage_eval email (domainLowerOf email) _ net rnd d0 d1 hp0 hp1)
  rw [hrej] at haux
  simp only [Bool.false_eq_true, if_false] at haux
  unfold verifyEmail
  rw [haux]
  exact ⟨rfl, rfl, rfl⟩

/-- C10 witness: the real address is accepted; the first synthetic probe
fails with a connection error, so the domain is not classified catch-all. -/
theorem c10_transport_failure_is_rejection_witness :
    (verifyEmail "user@example.com" false c10Network hexRnd).status = "valid" ∧
    (verifyEmail "user@example.com" false c10Network hexRnd).confidence_score =
      90 ∧
    (verifyEmail "user@example.com" false c10Network hexRnd).risk_level =
      "low" :=
  c10_transport_failure_is_rejection "user@example.com" c10Network hexRnd
    zohoMx rcptAcceptDialogue refusedDialogue rcptAcceptDialogue
    (by decide) (by decide) (by decide) (by decide) (by decide) (by decide)
    (by decide) (by decide) (by decide) (by decide) (by decide) (by decide)
    (Or.inl (by decide))

/-- The confidence value carried out of the heuristic stage is exactly the
scorer's value, whichever classification branch is taken. -/
theorem heuristicStage_score (email mp : String) (r5 : VerificationResult) :
    (heuristicStage email mp r5).confidence_score =
      calculateHeuristicConfidence email r5 mp := by
  unfold heuristicStage
  dsimp only
  split_ifs <;> rfl

/-- The status/risk classification of the heuristic stage as a function of
the scorer's value. -/
theorem heuristicStage_mapping (email mp : String) (r5 : VerificationResult) :
    (75 ≤ calculateHeuristicConfidence email r5 mp →
      (heuristicStage email mp r5).status = "valid" ∧
      (heuristicStage email mp r5).risk_level = "low") ∧
    (50 ≤ calculateHeuristicConfidence email r5 mp ∧
        calculateHeuristicConfidence email r5 mp < 75 →
      (heuristicStage email mp r5).status = "valid" ∧
      (heuristicStage email mp r5).risk_level = "medium") ∧
    (calculateHeuristicConfidence email r5 mp < 50 →
      (heuristicStage email mp r5).status = "unknown" ∧
      (heuristicStage email mp r5).risk_level = "medium") ∧
    (heuristicStage email mp r5).status ≠ "invalid" := by
  unfold heuristicStage
  dsimp only
  split_ifs with h1 h2
  · exact ⟨fun _ => ⟨rfl, rfl⟩, fun hh => (by omega : False).elim,
      fun hh => (by omega : False).elim, by simp⟩
  · exact ⟨fun hh => (by omega : False).elim, fun _ => ⟨rfl, rfl⟩,
      fun hh => (by omega : False).elim, by simp⟩
  · exact ⟨fun hh => (by omega : False).elim, fun hh => (by omega : False).elim,
      fun _ => ⟨rfl, rfl⟩, by simp⟩

/-- The code's sequential accumulation equals the spec's sum-of-terms form:
`calculateHeuristicConfidence` refines `specHeuristicScore`. -/
theorem calculateHeuristicConfidence_eq_spec (email mp : String)
    (r : VerificationResult) :
    calculateHeuristicConfidence email r mp =
      specHeuristicScore (localPartOf email) mp r.smtp_check r.dns_check
        r.is_role_account r.is_free_email := by
  have hadd : ∀ (c : Prop) (inst : Decidable c) (x k : Int),
      (if c then x + k else x) = x + (if c then k else 0) := by
    intro c inst x k
    split <;> simp
  have hsub : ∀ (c : Prop) (inst : Decidable c) (x k : Int),
      (if c then x - k else x) = x + (if c then -k else 0) := by
    intro c inst x k
    split <;> simp [sub_eq_add_neg]
  have hprov : ∀ (c1 c2 : Prop) (inst1 : Decidable c1) (inst2 : Decidable c2)
      (x k1 k2 : Int),
      (if c1 then x + k1 else x + (if c2 then k2 else 0)) =
        x + (if c1 then k1 else if c2 then k2 else 0) := by
    intro c1 c2 inst1 inst2 x k1 k2
    split <;> rfl
  unfold calculateHeuristicConfidence specHeuristicScore
  dsimp only
  simp only [hadd, hsub, hprov, zero_add]

/-- C5: on the skip-catch-all path (real address accepted, discriminator
skipped by flag or provider), the confidence score equals the spec's clamped
sum of terms — with +40 for the SMTP stage and +20 for DNS always present on
this path — and the status/risk mapping is `>= 75` → valid/low, 50–74 →
valid/medium, `< 50` → unknown/medium; the stage never yields
`status='invalid'`. -/
theorem c5_heuristic_scoring (email : String) (skipCatchAll : Bool)
    (net : Network) (rnd : Nat → String) (recs : List MxRecord)
    (d : List NetEvent)
    (hfmt : isValidFormat email = true)
    (hdisp : isDisposableDomain (domainLowerOf email) = false)
    (hmx : net.mx = Call.ok (some recs)) (hne : recs ≠ [])
    (hpe : net.probe email = Call.ok d)
    (hconn : (testSMTPConnection d).connected = true)
    (hacc : (testSMTPConnection d).accepted = true)
    (hskip : (skipCatchAll ||
        detectMailProvider ((sortByPriority recs).map MxRecord.exchange) ==
          "google_workspace" ||
        detectMailProvider ((sortByPriority recs).map MxRecord.exchange) ==
          "microsoft365" ||
        detectMailProvider ((sortByPriority recs).map MxRecord.exchange) ==
          "corporate") = true) :
    (verifyEmail email skipCatchAll net rnd).confidence_score =
      specHeuristicScore (localPartOf email)
        (detectMailProvider ((sortByPriority recs).map MxRecord.exchange))
        true true (isRoleAccount (localPartOf email))
        (isFreeEmailProvider (domainLowerOf email)) ∧
    (75 ≤ (verifyEmail email skipCatchAll net rnd).confidence_score →
      (verifyEmail email skipCatchAll net rnd).status = "valid" ∧
      (verifyEmail email skipCatchAll net rnd).risk_level = "low") ∧
    (50 ≤ (verifyEmail email skipCatchAll net rnd).confidence_score ∧
        (verifyEmail email skipCatchAll net rnd).confidence_score < 75 →
      (verifyEmail email skipCatchAll net rnd).status = "valid" ∧
      (verifyEmail email skipCatchAll net rnd).risk_level = "medium") ∧
    ((verifyEmail email skipCatchAll net rnd).confidence_score < 50 →
      (verifyEmail email skipCatchAll net rnd).status = "unknown" ∧
      (verifyEmail email skipCatchAll net rnd).risk_level = "medium") ∧
    (verifyEmail email skipCatchAll net rnd).status ≠ "invalid" := by
  have haux := (((aux_eq_dnsStage email skipCatchAll net rnd hfmt hdisp).trans
    (dnsStage_eq_smtpStage email skipCatchAll (domainLowerOf email)
      (filteredResult email) net rnd recs hmx hne)).trans
    (smtpStage_eq_acceptedStage email skipCatchAll (domainLowerOf email)
      (detectMailProvider ((sortByPriority recs).map MxRecord.exchange))
      { filteredResult email with
          dns_check := true
          mx_records := (sortByPriority recs).map MxRecord.exchange }
      net rnd d hpe hconn hacc)).trans
    (acceptedStage_skip_eq email skipCatchAll (domainLowerOf email)
      (detectMailProvider ((sortByPriority recs).map MxRecord.exchange))
      _ net rnd hskip)
  have hres : verifyEmail email skipCatchAll net rnd =
      heuristicStage email
        (detectMailProvider ((sortByPriority recs).map MxRecord.exchange))
        { { filteredResult email with
              dns_check := true
              mx_records := (sortByPriority recs).map MxRecord.exchange } with
          smtp_check := true } := by
    unfold verifyEmail
    rw [haux]
  rw [hres]
  have hsc := heuristicStage_score email
    (detectMailProvider ((sortByPriority recs).map MxRecord.exchange))
    { { filteredResult email with
          dns_check := true
          mx_records := (sortByPriority recs).map MxRecord.exchange } with
      smtp_check := true }
  have hmap := heuristicStage_mapping email
    (detectMailProvider ((sortByPriority recs).map MxRecord.exchange))
    { { filteredResult email with
          dns_check := true
          mx_records := (sortByPriority recs).map MxRecord.exchange } with
      smtp_check := true }
  have heq : calculateHeuristicConfidence email
      { { filteredResult email with
            dns_check := true
            mx_records := (sortByPriority recs).map MxRecord.exchange } with
        smtp_check := true }
      (detectMailProvider ((sortByPriority recs).map MxRecord.exchange)) =
      specHeuristicScore (localPartOf email)
        (detectMailProvider ((sortByPriority recs).map MxRecord.exchange))
        true true (isRoleAccount (localPartOf email))
        (isFreeEmailProvider (domainLowerOf email)) := by
    rw [calculateHeuristicConfidence_eq_spec]
    rfl
  rw [heq] at hmap
  rw [hsc, heq]
  exact ⟨rfl, hmap.1, hmap.2.1, hmap.2.2.1, hmap.2.2.2⟩

/-- C5 witness: a `corporate` domain and the name-shaped local part
`john.doe` give 40 + 20 + 15 + 10 = 85, hence valid/low. -/
theorem c5_heuristic_scoring_witness :
    (verifyEmail "john.doe@acme-corp.example" false c5Network hexRnd).confidence_score =
      specHeuristicScore "john.doe" "corporate" true true false false ∧
    (verifyEmail "john.doe@acme-corp.example" false c5Network hexRnd).status =
      "valid" ∧
    (verifyEmail "john.doe@acme-corp.example" false c5Network hexRnd).risk_level =
      "low" := by
  have h := c5_heuristic_scoring "john.doe@acme-corp.example" false c5Network
    hexRnd corpMx rcptAcceptDialogue (by decide) (by decide) (by decide)
    (by decide) (by decide) (by decide) (by decide) (by decide)
  have hval := h.2.1 (by rw [h.1]; decide)
  exact ⟨h.1, hval.1, hval.2⟩

/-- When the provider is on the skip list, the SMTP stage behaves the same
for both values of the skip flag: the flag is only read in the disjunction
that the provider already satisfies. -/
theorem smtpStage_skip_irrelevant (email : String) (s1 s2 : Bool)
    (dl mp : String) (r4 : VerificationResult) (net : Network)
    (rnd : Nat → String)
    (hp : mp = "google_workspace" ∨ mp = "microsoft365" ∨ mp = "corporate") :
    smtpStage email s1 dl mp r4 net rnd = smtpStage email s2 dl mp r4 net rnd := by
  have hcond : ∀ s : Bool, (s || mp == "google_workspace" ||
      mp == "microsoft365" || mp == "corporate") = true := by
    intro s
    rcases hp with rfl | rfl | rfl <;> cases s <;> rfl
  unfold smtpStage
  cases hq : net.probe email with
  | fault m => rfl
  | ok d =>
      simp only [hq]
      cases hcn : (testSMTPConnection d).connected
      · simp [hcn]
      · cases hac : (testSMTPConnection d).accepted
        · simp [hcn, hac]
        · simp [hcn, hac, acceptedStage, hcond]

/-- When the provider is on the skip list, the only address the SMTP stage
ever probes is the real one — no synthetic random address is contacted. -/
theorem smtpStage_probed_only_email (email : String) (s : Bool) (dl mp : String)
    (r4 : VerificationResult) (net : Network) (rnd : Nat → String)
    (hp : mp = "google_workspace" ∨ mp = "microsoft365" ∨ mp = "corporate") :
    ∀ a ∈ (traceOf (smtpStage email s dl mp r4 net rnd)).probed, a = email := by
  have hcond : ∀ s' : Bool, (s' || mp == "google_workspace" ||
      mp == "microsoft365" || mp == "corporate") = true := by
    intro s'
    rcases hp with rfl | rfl | rfl <;> cases s' <;> rfl
  unfold smtpStage
  cases hq : net.probe email with
  | fault m =>
      intro a ha
      simp [hq, traceOf] at ha
  | ok d =>
      cases hcn : (testSMTPConnection d).connected
      · intro a ha
        simp [hq, hcn, traceOf] at ha
        exact ha
      · cases hac : (testSMTPConnection d).accepted
        · intro a ha
          simp [hq, hcn, hac, traceOf] at ha
          exact ha
        · intro a ha
          simp [hq, hcn, hac, acceptedStage, hcond, traceOf] at ha
          exact ha

/-- C6: for an address whose MX records fingerprint as `google_workspace`,
running with `skipCatchAll=false` is identical to running with
`skipCatchAll=true` — same outcome of the try block, same returned result,
same trace — and no synthetic random-address probe is issued: every probed
address is the real one. -/
theorem c6_provider_overrides_flag (email : String) (net : Network)
    (rnd : Nat → String) (recs : List MxRecord)
    (hfmt : isValidFormat email = true)
    (hdisp : isDisposableDomain (domainLowerOf email) = false)
    (hmx : net.mx = Call.ok (some recs)) (hne : recs ≠ [])
    (hprov : detectMailProvider ((sortByPriority recs).map MxRecord.exchange) =
      "google_workspace") :
    verifyEmail email false net rnd = verifyEmail email true net rnd ∧
    verifyTrace email false net rnd = verifyTrace email true net rnd ∧
    ∀ a ∈ (verifyTrace email false net rnd).probed, a = email := by
  have e1 := (aux_eq_dnsStage email false net rnd hfmt hdisp).trans
    (dnsStage_eq_smtpStage email false (domainLowerOf email)
      (filteredResult email) net rnd recs hmx hne)
  have e2 := (aux_eq_dnsStage email true net rnd hfmt hdisp).trans
    (dnsStage_eq_smtpStage email true (domainLowerOf email)
      (filteredResult email) net rnd recs hmx hne)
  have Haux : verifyEmailAux email false net rnd =
      verifyEmailAux email true net rnd := by
    rw [e1, e2]
    exact smtpStage_skip_irrelevant email false true (domainLowerOf email) _ _
      net rnd (Or.inl hprov)
  refine ⟨?_, ?_, ?_⟩
  · unfold verifyEmail
    rw [Haux]
  · unfold verifyTrace
    rw [Haux]
  · unfold verifyTrace
    rw [e1]
    exact smtpStage_probed_only_email email false (domainLowerOf email) _ _
      net rnd (Or.inl hprov)

/-- C6 witness: the two runs coincide on a concrete Google-hosted domain. -/
theorem c6_provider_overrides_flag_witness :
    verifyEmail "user@example.com" false c6Network hexRnd =
      verifyEmail "user@example.com" true c6Network hexRnd ∧
    ∀ a ∈ (verifyTrace "user@example.com" false c6Network hexRnd).probed,
      a = "user@example.com" := by
  have h := c6_provider_overrides_flag "user@example.com" c6Network hexRnd
    googleMx (by decide) (by decide) (by decide) (by decide) (by decide)
  exact ⟨h.1, h.2.2⟩

/-- The heuristic stage preserves the C7 invariant: its score is the clamped
scorer value and it never sets the catch-all status or flag. -/
theorem heuristicStage_inv (email mp : String) (r5 : VerificationResult)
    (h : r5.is_catch_all = false) : resultInv (heuristicStage email mp r5) := by
  obtain ⟨h0, h100⟩ := calculateHeuristicConfidence_bounds email r5 mp
  unfold heuristicStage resultInv
  dsimp only
  split_ifs <;> exact ⟨h0, h100, by simp [h]⟩

/-- The catch-all stage preserves the C7 invariant: it sets flag and status
together in the catch-all branch and leaves the flag clear otherwise. -/
theorem catchAllStage_inv (email dl : String) (r5 : VerificationResult)
    (net : Network) (rnd : Nat → String) (h : r5.is_catch_all = false) :
    outcomeInv (catchAllStage email dl r5 net rnd) := by
  unfold catchAllStage
  cases hq0 : net.probe (rnd 0 ++ "@" ++ dl) with
  | fault m => simp [hq0, outcomeInv, h]
  | ok d0 =>
      cases hq1 : net.probe (rnd 1 ++ "@" ++ dl) with
      | fault m => simp [hq0, hq1, outcomeInv, h]
      | ok d1 =>
          simp only [hq0, hq1]
          cases ha0 : (testSMTPConnection d0).accepted <;>
            cases ha1 : (testSMTPConnection d1).accepted <;>
              norm_num [ha0, ha1, outcomeInv, resultInv, h] <;> decide

/-- The accepted stage preserves the C7 invariant. -/
theorem acceptedStage_inv (email : String) (s : Bool) (dl mp : String)
    (r5 : VerificationResult) (net : Network) (rnd : Nat → String)
    (h : r5.is_catch_all = false) :
    outcomeInv (acceptedStage email s dl mp r5 net rnd) := by
  unfold acceptedStage
  split
  · simpa [outcomeInv] using heuristicStage_inv email mp r5 h
  · exact catchAllStage_inv email dl r5 net rnd h

/-- The SMTP stage preserves the C7 invariant. -/
theorem smtpStage_inv (email : String) (s : Bool) (dl mp : String)
    (r4 : VerificationResult) (net : Network) (rnd : Nat → String)
    (h : r4.is_catch_all = false) :
    outcomeInv (smtpStage email s dl mp r4 net rnd) := by
  unfold smtpStage
  cases hq : net.probe email with
  | fault m => simp [hq, outcomeInv, h]
  | ok d =>
      simp only [hq]
      cases hcn : (testSMTPConnection d).connected
      · simp [hcn, outcomeInv, resultInv, h]
      · cases hac : (testSMTPConnection d).accepted
        · simp [hcn, hac, outcomeInv, resultInv, h]
        · simp only [hcn, hac, Bool.not_true, Bool.false_eq_true, if_false]
          exact acceptedStage_inv email s dl mp _ net rnd (by simpa using h)

/-- The DNS stage preserves the C7 invariant. -/
theorem dnsStage_inv (email : String) (s : Bool) (dl : String)
    (r3 : VerificationResult) (net : Network) (rnd : Nat → String)
    (h : r3.is_catch_all = false) :
    outcomeInv (dnsStage email s dl r3 net rnd) := by
  unfold dnsStage
  cases hq : net.mx with
  | fault m => simp [hq, outcomeInv, h]
  | ok o =>
      cases o with
      | none => simp [hq, outcomeInv, resultInv, noMxResult, h]
      | some recs =>
          simp only [hq]
          by_cases he : recs.isEmpty
          · simp [he, outcomeInv, resultInv, noMxResult, h]
          · simp only [he, Bool.false_eq_true, if_false]
            exact smtpStage_inv email s dl _ _ net rnd (by simpa using h)

/-- The whole try block preserves the C7 invariant. -/
theorem verifyEmailAux_inv (email : String) (s : Bool) (net : Network)
    (rnd : Nat → String) : outcomeInv (verifyEmailAux email s net rnd) := by
  unfold verifyEmailAux
  by_cases hv : isValidFormat email
  · simp only [hv, Bool.not_true, Bool.false_eq_true, if_false]
    by_cases hd : isDisposableDomain (domainLowerOf email)
    · simp [hd, outcomeInv, resultInv, initResult]
    · simp only [hd, Bool.false_eq_true, if_false]
      exact dnsStage_inv email s (domainLowerOf email) _ net rnd (by
        simp [initResult])
  · simp [hv, outcomeInv, resultInv, initResult]

/-- C7: for every input and every pattern of network responses, the returned
result has a confidence score in [0, 100], and the catch-all flag is set
exactly when the status is `'catch_all'`. -/
theorem c7_result_invariants (email : String) (skipCatchAll : Bool)
    (net : Network) (rnd : Nat → String) :
    0 ≤ (verifyEmail email skipCatchAll net rnd).confidence_score ∧
    (verifyEmail email skipCatchAll net rnd).confidence_score ≤ 100 ∧
    ((verifyEmail email skipCatchAll net rnd).is_catch_all = true ↔
      (verifyEmail email skipCatchAll net rnd).status = "catch_all") := by
  have h := verifyEmailAux_inv email skipCatchAll net rnd
  unfold verifyEmail
  cases hq : verifyEmailAux email skipCatchAll net rnd with
  | ok p =>
      obtain ⟨r, t⟩ := p
      rw [hq] at h
      simpa [outcomeInv, resultInv] using h
  | error e =>
      obtain ⟨m, r, t⟩ := e
      rw [hq] at h
      simp only [outcomeInv] at h
      refine ⟨by norm_num, by norm_num, ?_⟩
      simp [h]

/-- The heuristic stage never touches `dns_check` or `mx_records`. -/
theorem heuristicStage_dns_fields (email mp : String) (r5 : VerificationResult) :
    (heuristicStage email mp r5).dns_check = r5.dns_check ∧
    (heuristicStage email mp r5).mx_records = r5.mx_records := by
  unfold heuristicStage
  dsimp only
  split_ifs <;> exact ⟨rfl, rfl⟩

/-- The catch-all stage never touches `dns_check` or `mx_records`. -/
theorem catchAllStage_dns_fields (email dl : String) (r5 : VerificationResult)
    (net : Network) (rnd : Nat → String) :
    (outcomeResult (catchAllStage email dl r5 net rnd)).dns_check =
      r5.dns_check ∧
    (outcomeResult (catchAllStage email dl r5 net rnd)).mx_records =
      r5.mx_records := by
  unfold catchAllStage
  cases hq0 : net.probe (rnd 0 ++ "@" ++ dl) with
  | fault m => simp [hq0, outcomeResult]
  | ok d0 =>
      cases hq1 : net.probe (rnd 1 ++ "@" ++ dl) with
      | fault m => simp [hq0, hq1, outcomeResult]
      | ok d1 =>
          simp only [hq0, hq1]
          cases ha0 : (testSMTPConnection d0).accepted <;>
            cases ha1 : (testSMTPConnection d1).accepted <;>
              simp [ha0, ha1, outcomeResult]

/-- The accepted stage never touches `dns_check` or `mx_records`. -/
theorem acceptedStage_dns_fields (email : String) (s : Bool) (dl mp : String)
    (r5 : VerificationResult) (net : Network) (rnd : Nat → String) :
    (outcomeResult (acceptedStage email s dl mp r5 net rnd)).dns_check =
      r5.dns_check ∧
    (outcomeResult (acceptedStage email s dl mp r5 net rnd)).mx_records =
      r5.mx_records := by
  unfold acceptedStage
  split
  · simpa [outcomeResult] using heuristicStage_dns_fields email mp r5
  · exact catchAllStage_dns_fields email dl r5 net rnd

/-- The SMTP stage never touches `dns_check` or `mx_records`. -/
theorem smtpStage_dns_fields (email : String) (s : Bool) (dl mp : String)
    (r4 : VerificationResult) (net : Network) (rnd : Nat → String) :
    (outcomeResult (smtpStage email s dl mp r4 net rnd)).dns_check =
      r4.dns_check ∧
    (outcomeResult (smtpStage email s dl mp r4 net rnd)).mx_records =
      r4.mx_records := by
  unfold smtpStage
  cases hq : net.probe email with
  | fault m => simp [hq, outcomeResult]
  | ok d =>
      simp only [hq]
      cases hcn : (testSMTPConnection d).connected
      · simp [hcn, outcomeResult]
      · cases hac : (testSMTPConnection d).accepted
        · simp [hcn, hac, outcomeResult]
        · simp only [hcn, hac, Bool.not_true, Bool.false_eq_true, if_false]
          simpa using acceptedStage_dns_fields email s dl mp
            { r4 with smtp_check := true } net rnd

/-- The catch handler's fold preserves `dns_check` and `mx_records`, so the
returned result agrees with the try block's outcome on them. -/
theorem verifyEmail_dns_fields (email : String) (s : Bool) (net : Network)
    (rnd : Nat → String) :
    (verifyEmail email s net rnd).dns_check =
      (outcomeResult (verifyEmailAux email s net rnd)).dns_check ∧
    (verifyEmail email s net rnd).mx_records =
      (outcomeResult (verifyEmailAux email s net rnd)).mx_records := by
  unfold verifyEmail outcomeResult
  cases verifyEmailAux email s net rnd with
  | ok p =>
      obtain ⟨r, t⟩ := p
      exact ⟨rfl, rfl⟩
  | error e =>
      obtain ⟨m, r, t⟩ := e
      exact ⟨rfl, rfl⟩

/-- C8: when MX resolution fails or yields zero records, verification ends
with `status='invalid'`, `reason='No MX records found'`, `dns_check=false`,
`confidence_score=0`, `risk_level='high'`; on successful nonempty resolution,
every outcome carries `dns_check=true` and `mx_records` equal to the hostname
list of the records sorted ascending by priority (a permutation of the
resolved records, pairwise ordered). -/
theorem c8_mx_resolution (email : String) (skipCatchAll : Bool)
    (rnd : Nat → String)
    (hfmt : isValidFormat email = true)
    (hdisp : isDisposableDomain (domainLowerOf email) = false) :
    (∀ net : Network, net.mx = Call.ok none ∨ net.mx = Call.ok (some []) →
      verifyEmail email skipCatchAll net rnd =
        { filteredResult email with
            status := "invalid"
            reason := "No MX records found"
            dns_check := false
            confidence_score := 0
            risk_level := "high" }) ∧
    (∀ (net : Network) (recs : List MxRecord),
      net.mx = Call.ok (some recs) → recs ≠ [] →
      (verifyEmail email skipCatchAll net rnd).dns_check = true ∧
      (verifyEmail email skipCatchAll net rnd).mx_records =
        (sortByPriority recs).map MxRecord.exchange ∧
      (sortByPriority recs).Pairwise (fun a b => a.priority ≤ b.priority) ∧
      (sortByPriority recs).Perm recs) := by
  constructor
  · intro net hmx
    unfold verifyEmail
    rw [aux_eq_dnsStage email skipCatchAll net rnd hfmt hdisp]
    unfold dnsStage
    rcases hmx with h | h <;> rw [h] <;> simp [noMxResult]
  · intro net recs hmx hne
    have haux := (aux_eq_dnsStage email skipCatchAll net rnd hfmt hdisp).trans
      (dnsStage_eq_smtpStage email skipCatchAll (domainLowerOf email)
        (filteredResult email) net rnd recs hmx hne)
    have hfields := verifyEmail_dns_fields email skipCatchAll net rnd
    rw [haux] at hfields
    have hstage := smtpStage_dns_fields email skipCatchAll (domainLowerOf email)
      (detectMailProvider ((sortByPriority recs).map MxRecord.exchange))
      { filteredResult email with
          dns_check := true
          mx_records := (sortByPriority recs).map MxRecord.exchange }
      net rnd
    exact ⟨hfields.1.trans hstage.1, hfields.2.trans hstage.2,
      sortByPriority_pairwise recs, sortByPriority_perm recs⟩

/-- C8 witness: a failing resolution gives the no-route result, and a
two-record set supplied out of order is exposed sorted by priority. -/
theorem c8_mx_resolution_witness :
    (verifyEmail "user@nomx.example" false noMxNetwork hexRnd).reason =
      "No MX records found" ∧
    (verifyEmail "user@nomx.example" false noMxNetwork hexRnd).dns_check =
      false ∧
    (verifyEmail "user@twomx.example" false c8Network hexRnd).mx_records =
      ["primary.example.net", "backup.example.net"] := by
  have h1 := (c8_mx_resolution "user@nomx.example" false hexRnd (by decide)
    (by decide)).1 noMxNetwork (Or.inl (by decide))
  have h2 := (c8_mx_resolution "user@twomx.example" false hexRnd (by decide)
    (by decide)).2 c8Network twoMx (by decide) (by decide)
  refine ⟨by rw [h1], by rw [h1], ?_⟩
  rw [h2.2.1]
  decide

/-- C9: `verifyEmail` is total over the modelled fault space and folds any
unexpected internal fault at the outermost catch into `status='unknown'`,
`confidence_score=50`, `risk_level='medium'`, with the fault detail in
`reason`: shown for a rejection of the MX resolution promise (the result is
then the filtered record with exactly those four fields overwritten) and for
a rejection of the real-address probe promise (where the partial DNS state,
`dns_check=true`, survives the fold). -/
theorem c9_fault_folding (email : String) (skipCatchAll : Bool)
    (rnd : Nat → String) (msg : String)
    (hfmt : isValidFormat email = true)
    (hdisp : isDisposableDomain (domainLowerOf email) = false) :
    (∀ net : Network, net.mx = Call.fault msg →
      verifyEmail email skipCatchAll net rnd =
        { filteredResult email with
            status := "unknown"
            reason := "Verification error: " ++ msg
            confidence_score := 50
            risk_level := "medium" }) ∧
    (∀ (net : Network) (recs : List MxRecord), net.mx = Call.ok (some recs) →
      recs ≠ [] → net.probe email = Call.fault msg →
      (verifyEmail email skipCatchAll net rnd).status = "unknown" ∧
      (verifyEmail email skipCatchAll net rnd).confidence_score = 50 ∧
      (verifyEmail email skipCatchAll net rnd).risk_level = "medium" ∧
      (verifyEmail email skipCatchAll net rnd).reason =
        "Verification error: " ++ msg ∧
      (verifyEmail email skipCatchAll net rnd).dns_check = true) := by
  constructor
  · intro net hmx
    unfold verifyEmail
    rw [aux_eq_dnsStage email skipCatchAll net rnd hfmt hdisp]
    unfold dnsStage
    rw [hmx]
  · intro net recs hmx hne hpe
    have haux := (aux_eq_dnsStage email skipCatchAll net rnd hfmt hdisp).trans
      (dnsStage_eq_smtpStage email skipCatchAll (domainLowerOf email)
        (filteredResult email) net rnd recs hmx hne)
    unfold verifyEmail
    rw [haux]
    unfold smtpStage
    rw [hpe]
    exact ⟨rfl, rfl, rfl, rfl, rfl⟩

/-- C9 witness: the MX promise rejects; the fault is folded into
unknown/50/medium with the message in the reason. -/
theorem c9_fault_folding_witness :
    (verifyEmail "user@example.com" false mxFaultNetwork hexRnd).status =
      "unknown" ∧
    (verifyEmail "user@example.com" false mxFaultNetwork hexRnd).confidence_score =
      50 ∧
    (verifyEmail "user@example.com" false mxFaultNetwork hexRnd).risk_level =
      "medium" ∧
    (verifyEmail "user@example.com" false mxFaultNetwork hexRnd).reason =
      "Verification error: dns.resolveMx exploded" := by
  have h := (c9_fault_folding "user@example.com" false hexRnd
    "dns.resolveMx exploded" (by decide) (by decide)).1 mxFaultNetwork
    (by decide)
  rw [h]
  exact ⟨rfl, rfl, rfl, rfl⟩

end AutoEmailer
